import Mathlib

/-!
Shallow embedding of the agent-messaging repository (implementations.py,
main.py) together with spec-modelled pieces of the `common` module
(Message, MessageType, MessageBus) that the source imports but that is
not part of the provided sources.  Python strings are modelled as Lean
strings, Python `str.lower` / `in` / `startswith` as the helpers below,
the external web3 client as an explicit oracle, and exceptions as
`Except` values caught at the try/except boundary of each function.
-/

/-- A raised Python exception, identified by its class name. -/
inductive PyErr
  | exn (name : String)
deriving DecidableEq, Repr

/-- Modelled from the spec: the fixed tag set of module `common`
(RANDOM, HELLO, BALANCE, CRYPTO, TRANSFER are the tags used in the
sources). -/
inductive MessageType
  | RANDOM
  | HELLO
  | BALANCE
  | CRYPTO
  | TRANSFER
deriving DecidableEq, Repr

/-- A Python value stored in a message's metadata mapping. -/
inductive PyValue
  | str (s : String)
  | bool (b : Bool)
  | int (n : Int)
deriving DecidableEq, Repr

/-- A metadata mapping: string keys to Python values. -/
abbrev Metadata : Type := List (String × PyValue)

/-- Modelled from the spec: the immutable `Message` data unit of module
`common`: a `type` tag, a text `content` and an optional `metadata`
mapping. -/
structure Message where
  type : MessageType
  content : String
  metadata : Option Metadata := none
deriving DecidableEq, Repr

/-- Python `d.get(k)` on a metadata mapping. -/
def metaGet (md : Metadata) (k : String) : Option PyValue :=
  match md with
  | [] => none
  | (k2, v) :: rest => if k2 = k then some v else metaGet rest k

/-- Python `s.lower()` (ASCII case folding, which covers every string
occurring in the sources). -/
def pyLower (s : String) : String :=
  String.mk (s.data.map Char.toLower)

/-- Python `needle in hay` on strings: substring containment. -/
def pyContains (hay needle : String) : Bool :=
  decide (needle.data <:+: hay.data)

/-- Python `s.startswith(pre)`. -/
def pyStartsWith (s pre : String) : Bool :=
  decide (pre.data <+: s.data)

/-! ## MessageBus (spec-modelled) -/

/-- Modelled from the spec: the `MessageBus` of module `common` (not in the
provided sources) is an ordered, unbounded FIFO queue of Messages. -/
abbrev MessageBus.Bus : Type := List Message

/-- Modelled from the spec: `put(message)` enqueues at the back. -/
def MessageBus.put (q : MessageBus.Bus) (m : Message) : MessageBus.Bus :=
  q ++ [m]

/-- Modelled from the spec: `get()` removes and returns the oldest pending
message, or suspends (here: `none`) on an empty bus. -/
def MessageBus.get (q : MessageBus.Bus) : Option (Message × MessageBus.Bus) :=
  match q with
  | [] => none
  | m :: rest => some (m, rest)

/-- The sequence a single consumer obtains by calling `get()` until the
bus is empty. -/
def MessageBus.drainAll (q : MessageBus.Bus) : List Message :=
  match q with
  | [] => []
  | m :: rest => m :: MessageBus.drainAll rest

/-! ## RandomMessageBehavior (implementations.py lines 14-31) -/

/-- The fixed 10-word corpus `RandomMessageBehavior.WORDS`. -/
def RandomMessageBehavior.WORDS : List String :=
  ["hello", "sun", "world", "space", "moon", "crypto",
   "sky", "ocean", "universe", "human"]

/-- `super().__init__(interval=2.0)`: the behavior's interval in seconds. -/
def RandomMessageBehavior.interval : ℚ := 2

/-- `execute()`: `random.sample(WORDS, 2)` is modelled by the pair of
distinct indices `(i, j)` chosen by the random source; the body joins the
two sampled words with a single space. -/
def RandomMessageBehavior.execute (i j : Fin 10) : List Message :=
  let content :=
    RandomMessageBehavior.WORDS.getD i.val "" ++ " " ++
    RandomMessageBehavior.WORDS.getD j.val ""
  [{ type := MessageType.RANDOM, content := content }]

/-! ## HelloMessageHandler (implementations.py lines 33-54) -/

/-- `can_handle`: type HELLO or content containing "hello"
(case-insensitively), excluding contents starting with "Hello back!". -/
def HelloMessageHandler.can_handle (message : Message) : Bool :=
  (decide (message.type = MessageType.HELLO) ||
     pyContains (pyLower message.content) "hello") &&
  !pyStartsWith message.content "Hello back!"

/-- `handle`: responds with a single HELLO message echoing the received
content and recording it in the metadata. -/
def HelloMessageHandler.handle (message : Message) : List Message :=
  let response_content := "Hello back! Received: " ++ message.content
  [{ type := MessageType.HELLO,
     content := response_content,
     metadata := some [("original_message", PyValue.str message.content),
                       ("is_response", PyValue.bool true)] }]

/-! ## External blockchain client, modelled as an oracle -/

/-- `web3.to_wei(n, "ether")`: exact conversion to wei. -/
def toWei (n : Int) : Int := n * 10 ^ 18

/-- `web3.from_wei(b, "ether")`: exact conversion from wei. -/
def fromWei (b : Int) : ℚ := (b : ℚ) / 10 ^ 18

/-- Decimal-free rendering of the ether amount used as message content;
no claim depends on its exact shape. -/
def ratStr (q : ℚ) : String :=
  toString q.num ++ "/" ++ toString q.den

/-- The transaction dictionary built by
`token_contract.functions.transfer(...).build_transaction({...})`. -/
structure Txn where
  target : PyValue
  amountWei : Int
  fromAddr : String
  gas : Nat
  gasPrice : Nat
  nonce : Nat
deriving DecidableEq, Repr

/-- `web3.eth.account.sign_transaction(...)`'s result: carries the raw
transaction bytes. -/
structure SignedTxn where
  rawTransaction : String
deriving DecidableEq, Repr

/-- One interaction with the external blockchain client, recorded in the
order the Python code performs it. -/
inductive ChainEffect
  | balanceChecked (addr : String)
  | nonceFetched (addr : String)
  | gasPriceFetched
  | txnBuilt (t : Txn)
  | txnSigned (t : Txn)
  | txnSent (raw : String)
deriving DecidableEq, Repr

/-- The external blockchain client (web3 + token contract), modelled as an
oracle whose every call may raise. -/
structure ChainOracle where
  balanceOf : String → Except PyErr Int
  txCount : String → Except PyErr Nat
  gasPrice : Except PyErr Nat
  sign : Txn → String → Except PyErr SignedTxn
  send : String → Except PyErr String

/-! ## ERC20BalanceChecker (implementations.py lines 55-82) -/

/-- The per-instance configuration of `ERC20BalanceChecker` (the web3 and
contract objects live in the oracle). -/
structure ERC20BalanceChecker where
  address : String

/-- `super().__init__(interval=10.0)`: the checker's interval in seconds. -/
def ERC20BalanceChecker.interval : ℚ := 10

/-- The `try` body of `ERC20BalanceChecker.execute`. -/
def ERC20BalanceChecker.executeBody (self : ERC20BalanceChecker)
    (o : ChainOracle) : Except PyErr (List Message) :=
  match o.balanceOf self.address with
  | Except.error e => Except.error e
  | Except.ok balance =>
    let balance_eth := fromWei balance
    Except.ok
      [{ type := MessageType.BALANCE,
         content := ratStr balance_eth,
         metadata := some [("address", PyValue.str self.address),
                           ("raw_balance", PyValue.str (toString balance)),
                           ("unit", PyValue.str "ether")] }]

/-- `ERC20BalanceChecker.execute`: the `try`/`except` wrapper, which logs
and returns `[]` on any raised exception. -/
def ERC20BalanceChecker.execute (self : ERC20BalanceChecker)
    (o : ChainOracle) : List Message :=
  match ERC20BalanceChecker.executeBody self o with
  | Except.ok msgs => msgs
  | Except.error _ => []

/-! ## CryptoTransferHandler (implementations.py lines 84-151) -/

/-- The per-instance configuration of `CryptoTransferHandler`. -/
structure CryptoTransferHandler where
  source_address : String
  private_key : String

/-- The hardcoded default target address in
`message.metadata.get("target_address", ...)`. -/
def CryptoTransferHandler.defaultTarget : String :=
  "0x0123456789012345678901234567890123456789"

/-- `can_handle`: type CRYPTO or content containing "crypto"
(case-insensitively). -/
def CryptoTransferHandler.can_handle (message : Message) : Bool :=
  decide (message.type = MessageType.CRYPTO) ||
    pyContains (pyLower message.content) "crypto"

/-- `message.metadata.get("target_address", <default>)`: the transfer
target chosen from the metadata, with the hardcoded fallback. -/
def CryptoTransferHandler.targetOf (md : Metadata) : PyValue :=
  (metaGet md "target_address").getD
    (PyValue.str CryptoTransferHandler.defaultTarget)

/-- The transaction dictionary `handle` builds for a given metadata
mapping, gas price and nonce. -/
def CryptoTransferHandler.txnOf (self : CryptoTransferHandler)
    (md : Metadata) (gp nonce : Nat) : Txn :=
  { target := CryptoTransferHandler.targetOf md, amountWei := toWei 1,
    fromAddr := self.source_address, gas := 100000,
    gasPrice := gp, nonce := nonce }

/-- The `try` body of `CryptoTransferHandler.handle`, paired with the
trace of interactions attempted on the external client.  A `none`
metadata makes `message.metadata.get(...)` raise before any client
call. -/
def CryptoTransferHandler.handleBody (self : CryptoTransferHandler)
    (o : ChainOracle) (message : Message) :
    Except PyErr (List Message) × List ChainEffect :=
  match message.metadata with
  | none => (Except.error (PyErr.exn "AttributeError"), [])
  | some md =>
    match o.balanceOf self.source_address with
    | Except.error e =>
      (Except.error e, [ChainEffect.balanceChecked self.source_address])
    | Except.ok balance =>
      if balance < toWei 1 then
        (Except.ok [], [ChainEffect.balanceChecked self.source_address])
      else
        match o.txCount self.source_address with
        | Except.error e =>
          (Except.error e,
           [ChainEffect.balanceChecked self.source_address,
            ChainEffect.nonceFetched self.source_address])
        | Except.ok nonce =>
          match o.gasPrice with
          | Except.error e =>
            (Except.error e,
             [ChainEffect.balanceChecked self.source_address,
              ChainEffect.nonceFetched self.source_address,
              ChainEffect.gasPriceFetched])
          | Except.ok gp =>
            match o.sign (CryptoTransferHandler.txnOf self md gp nonce)
                self.private_key with
            | Except.error e =>
              (Except.error e,
               [ChainEffect.balanceChecked self.source_address,
                ChainEffect.nonceFetched self.source_address,
                ChainEffect.gasPriceFetched,
                ChainEffect.txnBuilt (CryptoTransferHandler.txnOf self md gp nonce),
                ChainEffect.txnSigned (CryptoTransferHandler.txnOf self md gp nonce)])
            | Except.ok signed_txn =>
              match o.send signed_txn.rawTransaction with
              | Except.error e =>
                (Except.error e,
                 [ChainEffect.balanceChecked self.source_address,
                  ChainEffect.nonceFetched self.source_address,
                  ChainEffect.gasPriceFetched,
                  ChainEffect.txnBuilt (CryptoTransferHandler.txnOf self md gp nonce),
                  ChainEffect.txnSigned (CryptoTransferHandler.txnOf self md gp nonce),
                  ChainEffect.txnSent signed_txn.rawTransaction])
              | Except.ok tx_hash =>
                (Except.ok
                   [{ type := MessageType.TRANSFER,
                      content := "Transfer successful",
                      metadata := some
                        [("tx_hash", PyValue.str tx_hash),
                         ("source_address", PyValue.str self.source_address),
                         ("target_address", CryptoTransferHandler.targetOf md)] }],
                 [ChainEffect.balanceChecked self.source_address,
                  ChainEffect.nonceFetched self.source_address,
                  ChainEffect.gasPriceFetched,
                  ChainEffect.txnBuilt (CryptoTransferHandler.txnOf self md gp nonce),
                  ChainEffect.txnSigned (CryptoTransferHandler.txnOf self md gp nonce),
                  ChainEffect.txnSent signed_txn.rawTransaction])

/-- `CryptoTransferHandler.handle`: the `try`/`except` wrapper, which
logs and returns `[]` on any raised exception; the effect trace records
what reached the external client. -/
def CryptoTransferHandler.handle (self : CryptoTransferHandler)
    (o : ChainOracle) (message : Message) :
    List Message × List ChainEffect :=
  match CryptoTransferHandler.handleBody self o message with
  | (Except.ok msgs, tr) => (msgs, tr)
  | (Except.error _, tr) => ([], tr)

/-! ## main.py (lines 64-92): construction, wiring and run order -/

/-- One step of the straight-line happy path of `main()`:
`assignOutboxToInbox dst src` is the field reassignment
`agent<dst>.outbox = agent<src>.inbox`; `connectAgents` is the vocabulary
for a dedicated connect operation, which `main()` never performs. -/
inductive MainStep
  | setupWeb3
  | loadTokenAbi
  | initContract
  | setupAgent (i : Nat)
  | assignOutboxToInbox (dst src : Nat)
  | connectAgents (a b : Nat)
  | runAgentsConcurrently (agents : List Nat)
deriving DecidableEq, Repr

/-- Whether a step constructs an agent. -/
def MainStep.isSetupAgent : MainStep → Bool
  | MainStep.setupAgent _ => true
  | _ => false

/-- Whether a step is an outbox-field reassignment. -/
def MainStep.isAssign : MainStep → Bool
  | MainStep.assignOutboxToInbox _ _ => true
  | _ => false

/-- Whether a step is a dedicated connect operation. -/
def MainStep.isConnect : MainStep → Bool
  | MainStep.connectAgents _ _ => true
  | _ => false

/-- Whether a step runs agents. -/
def MainStep.isRun : MainStep → Bool
  | MainStep.runAgentsConcurrently _ => true
  | _ => false

/-- The sequence of steps `main()` performs on its happy path
(main.py lines 64-92). -/
def mainTrace : List MainStep :=
  [MainStep.setupWeb3,
   MainStep.loadTokenAbi,
   MainStep.initContract,
   MainStep.setupAgent 1,
   MainStep.setupAgent 2,
   MainStep.assignOutboxToInbox 1 2,
   MainStep.assignOutboxToInbox 2 1,
   MainStep.runAgentsConcurrently [1, 2]]

/-! ## Concrete fixtures used by witnesses and counterexamples -/

/-- The concrete scenario message of the spec. -/
def helloWorldMsg : Message :=
  { type := MessageType.HELLO, content := "hello world" }

/-- The metadata of the response to `helloWorldMsg`. -/
def helloWorldRespMd : Metadata :=
  [("original_message", PyValue.str "hello world"),
   ("is_response", PyValue.bool true)]

/-- A message matched by both reference handlers; its content is two
corpus words joined by a space, as `RandomMessageBehavior` produces. -/
def overlapMsg : Message :=
  { type := MessageType.RANDOM, content := "hello crypto" }

/-- A concrete crypto-transfer request with an (empty) metadata mapping. -/
def cryptoMsg : Message :=
  { type := MessageType.CRYPTO, content := "please crypto", metadata := some [] }

/-- An oracle whose every call raises. -/
def failingOracle : ChainOracle :=
  { balanceOf := fun _ => Except.error (PyErr.exn "ConnectionError"),
    txCount := fun _ => Except.error (PyErr.exn "ConnectionError"),
    gasPrice := Except.error (PyErr.exn "ConnectionError"),
    sign := fun _ _ => Except.error (PyErr.exn "ConnectionError"),
    send := fun _ => Except.error (PyErr.exn "ConnectionError") }

/-- An oracle on which every call succeeds and the balance is 2 ether. -/
def okOracle : ChainOracle :=
  { balanceOf := fun _ => Except.ok (toWei 2),
    txCount := fun _ => Except.ok 7,
    gasPrice := Except.ok 1000,
    sign := fun t k => Except.ok { rawTransaction := "raw:" ++ t.fromAddr ++ ":" ++ k },
    send := fun raw => Except.ok ("0xhash:" ++ raw) }

/-- An oracle reporting a balance below 1 ether. -/
def poorOracle : ChainOracle :=
  { balanceOf := fun _ => Except.ok 5,
    txCount := fun _ => Except.ok 7,
    gasPrice := Except.ok 1000,
    sign := fun t k => Except.ok { rawTransaction := "raw:" ++ t.fromAddr ++ ":" ++ k },
    send := fun raw => Except.ok ("0xhash:" ++ raw) }

/-! ## Helper lemmas -/

/-- Every Hello response content starts with the loop-prevention tag. -/
theorem hello_response_tag (s : String) :
    pyStartsWith ("Hello back! Received: " ++ s) "Hello back!" = true := by
  unfold pyStartsWith
  rw [decide_eq_true_eq, String.data_append]
  exact (show "Hello back!".data <+: "Hello back! Received: ".data by decide).trans
    (List.prefix_append _ _)

/-- A message whose content carries the loop-prevention tag is refused by
the Hello predicate, whatever its type and metadata. -/
theorem hello_response_not_rehandled (t : MessageType) (s : String)
    (md : Option Metadata) :
    HelloMessageHandler.can_handle
      { type := t, content := "Hello back! Received: " ++ s, metadata := md } =
      false := by
  unfold HelloMessageHandler.can_handle
  rw [hello_response_tag]
  simp

/-- A transfer response is refused by the crypto predicate, whatever its
metadata. -/
theorem transfer_response_not_rehandled (md : Option Metadata) :
    CryptoTransferHandler.can_handle
      { type := MessageType.TRANSFER, content := "Transfer successful",
        metadata := md } = false := by
  rfl

/-- Any successful run of the transfer try body emits either nothing or a
single fixed-shape transfer response. -/
theorem handleBody_ok_messages (self : CryptoTransferHandler) (o : ChainOracle)
    (m : Message) (msgs : List Message) (tr : List ChainEffect)
    (h : CryptoTransferHandler.handleBody self o m = (Except.ok msgs, tr)) :
    msgs = [] ∨ ∃ txh ta, msgs =
      [{ type := MessageType.TRANSFER, content := "Transfer successful",
         metadata := some [("tx_hash", PyValue.str txh),
                           ("source_address", PyValue.str self.source_address),
                           ("target_address", ta)] }] := by
  unfold CryptoTransferHandler.handleBody at h
  split at h
  · simp at h
  · split at h
    · simp at h
    · split at h
      · left
        simp at h
        exact h.1
      · split at h
        · simp at h
        · split at h
          · simp at h
          · split at h
            · simp at h
            · split at h
              · simp at h
              · right
                simp at h
                exact ⟨_, _, h.1.symm⟩

/-! ## Claim theorems -/

/-- C1: for the input Message {type: HELLO, content: "hello world"},
`HelloMessageHandler.can_handle` returns true, and
`HelloMessageHandler.handle` returns exactly one Message whose content is
"Hello back! Received: hello world" and whose metadata maps
"original_message" to "hello world". -/
theorem claim_C1_hello_scenario :
    HelloMessageHandler.can_handle helloWorldMsg = true ∧
    HelloMessageHandler.handle helloWorldMsg =
      [{ type := MessageType.HELLO,
         content := "Hello back! Received: hello world",
         metadata := some helloWorldRespMd }] ∧
    metaGet helloWorldRespMd "original_message" =
      some (PyValue.str "hello world") := by
  refine ⟨by decide, ?_, by decide⟩
  rfl

/-- C2: every response either reference handler produces is refused by
that handler's own predicate: Hello responses carry the "Hello back!"
prefix and are never re-handled; transfer responses have type TRANSFER
and content "Transfer successful" and are never re-handled. -/
theorem claim_C2_no_self_loop :
    (∀ (m r : Message), r ∈ HelloMessageHandler.handle m →
       pyStartsWith r.content "Hello back!" = true ∧
       HelloMessageHandler.can_handle r = false) ∧
    (∀ (self : CryptoTransferHandler) (o : ChainOracle) (m r : Message),
       r ∈ (CryptoTransferHandler.handle self o m).1 →
       r.type = MessageType.TRANSFER ∧
       r.content = "Transfer successful" ∧
       CryptoTransferHandler.can_handle r = false) := by
  constructor
  · intro m r hr
    simp only [HelloMessageHandler.handle, List.mem_singleton] at hr
    subst hr
    exact ⟨hello_response_tag m.content,
           hello_response_not_rehandled _ _ _⟩
  · intro self o m r hr
    unfold CryptoTransferHandler.handle at hr
    rcases hres : CryptoTransferHandler.handleBody self o m with ⟨res, tr⟩
    rw [hres] at hr
    cases res with
    | error e => simp at hr
    | ok msgs =>
      simp only at hr
      rcases handleBody_ok_messages self o m msgs tr hres with hnil | ⟨txh, ta, hone⟩
      · subst hnil
        simp at hr
      · subst hone
        simp only [List.mem_singleton] at hr
        subst hr
        exact ⟨rfl, rfl, transfer_response_not_rehandled _⟩

/-- C2 witness: the Hello response to a concrete greeting carries the tag
and is refused by the Hello predicate. -/
theorem claim_C2_no_self_loop_witness :
    pyStartsWith ("Hello back! Received: " ++ "hi") "Hello back!" = true ∧
    HelloMessageHandler.can_handle
      { type := MessageType.HELLO,
        content := "Hello back! Received: " ++ "hi",
        metadata := some [("original_message", PyValue.str "hi"),
                          ("is_response", PyValue.bool true)] } = false :=
  claim_C2_no_self_loop.1 { type := MessageType.HELLO, content := "hi" } _
    (List.mem_singleton.mpr rfl)

/-- C3 counterexample: the claim "the two reference handler predicates
never overlap" is false: the Message {type: RANDOM, content:
"hello crypto"} is matched by both predicates. -/
theorem claim_C3_overlap_counterexample :
    ¬ (∀ m : Message,
        ¬ (HelloMessageHandler.can_handle m = true ∧
           CryptoTransferHandler.can_handle m = true)) := by
  intro hdisj
  exact hdisj overlapMsg ⟨by decide, by decide⟩

/-- C3 amended: the two reference handler predicates can overlap: both
return true on every Message whose content contains both "hello" and
"crypto" (case-insensitively) and does not start with "Hello back!". -/
theorem claim_C3_overlap_amended (m : Message)
    (h1 : pyContains (pyLower m.content) "hello" = true)
    (h2 : pyContains (pyLower m.content) "crypto" = true)
    (h3 : pyStartsWith m.content "Hello back!" = false) :
    HelloMessageHandler.can_handle m = true ∧
    CryptoTransferHandler.can_handle m = true := by
  unfold HelloMessageHandler.can_handle CryptoTransferHandler.can_handle
  rw [h1, h2, h3]
  simp

/-- C3 witness: the overlap at the concrete message
{type: RANDOM, content: "hello crypto"}. -/
theorem claim_C3_overlap_witness :
    HelloMessageHandler.can_handle overlapMsg = true ∧
    CryptoTransferHandler.can_handle overlapMsg = true :=
  claim_C3_overlap_amended overlapMsg (by decide) (by decide) (by decide)

/-- C4: characterization of the Hello predicate: `can_handle` holds iff
(type is HELLO, or the lowercased content contains "hello") and the
content does not start with the exact string "Hello back!". -/
theorem claim_C4_hello_predicate_charac (m : Message) :
    HelloMessageHandler.can_handle m = true ↔
      ((m.type = MessageType.HELLO ∨
          "hello".data <:+: (pyLower m.content).data) ∧
       ¬ ("Hello back!".data <+: m.content.data)) := by
  unfold HelloMessageHandler.can_handle pyContains pyStartsWith
  simp

/-- C5: failure containment: whenever the try body of
`ERC20BalanceChecker.execute` or of `CryptoTransferHandler.handle` raises,
the wrapper catches the exception and returns the empty message list, so
no exception propagates and no Message represents the failure. -/
theorem claim_C5_failure_containment :
    (∀ (chk : ERC20BalanceChecker) (o : ChainOracle) (e : PyErr),
       ERC20BalanceChecker.executeBody chk o = Except.error e →
       ERC20BalanceChecker.execute chk o = []) ∧
    (∀ (self : CryptoTransferHandler) (o : ChainOracle) (m : Message)
       (e : PyErr) (tr : List ChainEffect),
       CryptoTransferHandler.handleBody self o m = (Except.error e, tr) →
       CryptoTransferHandler.handle self o m = ([], tr)) := by
  constructor
  · intro chk o e h
    unfold ERC20BalanceChecker.execute
    rw [h]
  · intro self o m e tr h
    unfold CryptoTransferHandler.handle
    rw [h]

/-- C5 witness: containment at a concrete always-raising client. -/
theorem claim_C5_failure_containment_witness :
    ERC20BalanceChecker.executeBody { address := "0xaddr" } failingOracle =
      Except.error (PyErr.exn "ConnectionError") ∧
    ERC20BalanceChecker.execute { address := "0xaddr" } failingOracle = [] ∧
    CryptoTransferHandler.handle
      { source_address := "0xsrc", private_key := "key" } failingOracle
      cryptoMsg = ([], [ChainEffect.balanceChecked "0xsrc"]) :=
  ⟨rfl,
   claim_C5_failure_containment.1 { address := "0xaddr" } failingOracle
     (PyErr.exn "ConnectionError") rfl,
   claim_C5_failure_containment.2
     { source_address := "0xsrc", private_key := "key" } failingOracle
     cryptoMsg (PyErr.exn "ConnectionError")
     [ChainEffect.balanceChecked "0xsrc"] rfl⟩

/-- C6: in `main()`, wiring is exactly the two field reassignments
`agent1.outbox = agent2.inbox` and `agent2.outbox = agent1.inbox`, they
happen after both agents are constructed and before either agent is run,
and no dedicated connect operation occurs. -/
theorem claim_C6_wiring :
    mainTrace.filter MainStep.isAssign =
      [MainStep.assignOutboxToInbox 1 2, MainStep.assignOutboxToInbox 2 1] ∧
    mainTrace.countP MainStep.isConnect = 0 ∧
    (∀ i j : Fin mainTrace.length,
       MainStep.isSetupAgent (mainTrace.getD i.val MainStep.setupWeb3) = true →
       MainStep.isAssign (mainTrace.getD j.val MainStep.setupWeb3) = true →
       i.val < j.val) ∧
    (∀ i j : Fin mainTrace.length,
       MainStep.isAssign (mainTrace.getD i.val MainStep.setupWeb3) = true →
       MainStep.isRun (mainTrace.getD j.val MainStep.setupWeb3) = true →
       i.val < j.val) := by
  refine ⟨by decide, by decide, by decide, by decide⟩

/-- C6 witness: the construction of agent 1 (index 3) precedes the first
reassignment (index 5). -/
theorem claim_C6_wiring_witness :
    MainStep.isSetupAgent (mainTrace.getD 3 MainStep.setupWeb3) = true ∧
    MainStep.isAssign (mainTrace.getD 5 MainStep.setupWeb3) = true ∧
    (3 : Nat) < 5 :=
  ⟨by decide, by decide,
   claim_C6_wiring.2.2.1 ⟨3, by decide⟩ ⟨5, by decide⟩ (by decide) (by decide)⟩

/-- The modelled bus drains to exactly its queue contents. -/
theorem drainAll_eq_queue (q : MessageBus.Bus) :
    MessageBus.drainAll q = q := by
  induction q with
  | nil => rfl
  | cons m rest ih => simp [MessageBus.drainAll, ih]

/-- C7: FIFO per producer on the (spec-modelled) MessageBus: draining by
repeated `get()` returns messages oldest-first, so three messages put in
order a, b, c are obtained in order a, b, c after whatever was already
queued. -/
theorem claim_C7_fifo_per_producer :
    (∀ q : MessageBus.Bus,
       MessageBus.drainAll q =
         (match MessageBus.get q with
          | none => []
          | some (m, rest) => m :: MessageBus.drainAll rest)) ∧
    (∀ (q : MessageBus.Bus) (a b c : Message),
       MessageBus.drainAll
         (MessageBus.put (MessageBus.put (MessageBus.put q a) b) c) =
         MessageBus.drainAll q ++ [a, b, c]) := by
  constructor
  · intro q
    cases q <;> rfl
  · intro q a b c
    simp [drainAll_eq_queue, MessageBus.put]

/-- Each sampled index yields a corpus word. -/
theorem words_getD_mem :
    ∀ i : Fin 10,
      RandomMessageBehavior.WORDS.getD i.val "" ∈ RandomMessageBehavior.WORDS := by
  decide

/-- Distinct sampled indices yield distinct corpus words. -/
theorem words_getD_injective :
    ∀ i j : Fin 10, i ≠ j →
      RandomMessageBehavior.WORDS.getD i.val "" ≠
        RandomMessageBehavior.WORDS.getD j.val "" := by
  decide

/-- C8: RandomMessageBehavior has the fixed interval 2.0 seconds, and for
every random draw of two distinct indices, `execute()` returns exactly
one RANDOM Message whose content is two distinct corpus words joined by a
single space. -/
theorem claim_C8_random_behavior :
    RandomMessageBehavior.interval = 2 ∧
    ∀ i j : Fin 10, i ≠ j →
      ∃ w1 w2,
        w1 ∈ RandomMessageBehavior.WORDS ∧
        w2 ∈ RandomMessageBehavior.WORDS ∧
        w1 ≠ w2 ∧
        RandomMessageBehavior.execute i j =
          [{ type := MessageType.RANDOM, content := w1 ++ " " ++ w2,
             metadata := none }] := by
  refine ⟨rfl, ?_⟩
  intro i j hij
  exact ⟨RandomMessageBehavior.WORDS.getD i.val "",
         RandomMessageBehavior.WORDS.getD j.val "",
         words_getD_mem i, words_getD_mem j,
         words_getD_injective i j hij, rfl⟩

/-- C8 witness: the draw (0, 5) produces the two distinct corpus words
"hello" and "crypto" joined by a space. -/
theorem claim_C8_random_behavior_witness :
    (0 : Fin 10) ≠ (5 : Fin 10) ∧
    (∃ w1 w2,
       w1 ∈ RandomMessageBehavior.WORDS ∧
       w2 ∈ RandomMessageBehavior.WORDS ∧
       w1 ≠ w2 ∧
       RandomMessageBehavior.execute 0 5 =
         [{ type := MessageType.RANDOM, content := w1 ++ " " ++ w2,
            metadata := none }]) :=
  ⟨by decide, claim_C8_random_behavior.2 0 5 (by decide)⟩

/-- C9: when a matched message's metadata lacks "target_address", the
balance covers 1 ether and every client call succeeds, `handle` builds,
signs and sends a transfer of exactly `toWei 1` to the hardcoded default
address and returns one TRANSFER Message whose metadata maps
"target_address" to that address. -/
theorem claim_C9_default_target (self : CryptoTransferHandler)
    (o : ChainOracle) (m : Message) (md : Metadata) (bal : Int)
    (nonce gp : Nat) (s : SignedTxn) (txh : String)
    (_hch : CryptoTransferHandler.can_handle m = true)
    (hmd : m.metadata = some md)
    (hno : metaGet md "target_address" = none)
    (hbal : o.balanceOf self.source_address = Except.ok bal)
    (hge : toWei 1 ≤ bal)
    (hn : o.txCount self.source_address = Except.ok nonce)
    (hg : o.gasPrice = Except.ok gp)
    (hs : o.sign (CryptoTransferHandler.txnOf self md gp nonce)
            self.private_key = Except.ok s)
    (hsend : o.send s.rawTransaction = Except.ok txh) :
    CryptoTransferHandler.txnOf self md gp nonce =
      { target := PyValue.str CryptoTransferHandler.defaultTarget,
        amountWei := toWei 1, fromAddr := self.source_address,
        gas := 100000, gasPrice := gp, nonce := nonce } ∧
    CryptoTransferHandler.handle self o m =
      ([{ type := MessageType.TRANSFER, content := "Transfer successful",
          metadata := some
            [("tx_hash", PyValue.str txh),
             ("source_address", PyValue.str self.source_address),
             ("target_address",
              PyValue.str CryptoTransferHandler.defaultTarget)] }],
       [ChainEffect.balanceChecked self.source_address,
        ChainEffect.nonceFetched self.source_address,
        ChainEffect.gasPriceFetched,
        ChainEffect.txnBuilt (CryptoTransferHandler.txnOf self md gp nonce),
        ChainEffect.txnSigned (CryptoTransferHandler.txnOf self md gp nonce),
        ChainEffect.txnSent s.rawTransaction]) := by
  have htarget : CryptoTransferHandler.targetOf md =
      PyValue.str CryptoTransferHandler.defaultTarget := by
    unfold CryptoTransferHandler.targetOf
    rw [hno]
    rfl
  constructor
  · unfold CryptoTransferHandler.txnOf
    rw [htarget]
  · unfold CryptoTransferHandler.handle CryptoTransferHandler.handleBody
    simp only [hmd, hbal]
    rw [if_neg (not_lt.mpr hge)]
    simp only [hn, hg, hs, hsend, htarget]

/-- C9 witness: the default-target transfer at a concrete handler,
message and all-succeeding client. -/
theorem claim_C9_default_target_witness :
    CryptoTransferHandler.handle
      { source_address := "0xsrc", private_key := "key" } okOracle
      cryptoMsg =
      ([{ type := MessageType.TRANSFER, content := "Transfer successful",
          metadata := some
            [("tx_hash", PyValue.str "0xhash:raw:0xsrc:key"),
             ("source_address", PyValue.str "0xsrc"),
             ("target_address",
              PyValue.str CryptoTransferHandler.defaultTarget)] }],
       [ChainEffect.balanceChecked "0xsrc",
        ChainEffect.nonceFetched "0xsrc",
        ChainEffect.gasPriceFetched,
        ChainEffect.txnBuilt
          (CryptoTransferHandler.txnOf
            { source_address := "0xsrc", private_key := "key" } [] 1000 7),
        ChainEffect.txnSigned
          (CryptoTransferHandler.txnOf
            { source_address := "0xsrc", private_key := "key" } [] 1000 7),
        ChainEffect.txnSent "raw:0xsrc:key"]) :=
  (claim_C9_default_target
    { source_address := "0xsrc", private_key := "key" } okOracle cryptoMsg
    [] (toWei 2) 7 1000 { rawTransaction := "raw:0xsrc:key" }
    "0xhash:raw:0xsrc:key" (by decide) rfl rfl rfl (by decide)
    rfl rfl rfl rfl).2

/-- C10: when the queried balance is strictly below 1 ether, `handle`
returns the empty list and the only client interaction is the balance
query: no transaction is built, signed or sent. -/
theorem claim_C10_insufficient_balance (self : CryptoTransferHandler)
    (o : ChainOracle) (m : Message) (md : Metadata) (bal : Int)
    (_hch : CryptoTransferHandler.can_handle m = true)
    (hmd : m.metadata = some md)
    (hbal : o.balanceOf self.source_address = Except.ok bal)
    (hlt : bal < toWei 1) :
    CryptoTransferHandler.handle self o m =
      ([], [ChainEffect.balanceChecked self.source_address]) := by
  unfold CryptoTransferHandler.handle CryptoTransferHandler.handleBody
  simp only [hmd, hbal]
  rw [if_pos hlt]

/-- C10 witness: the guard at a concrete client reporting 5 wei. -/
theorem claim_C10_insufficient_balance_witness :
    CryptoTransferHandler.handle
      { source_address := "0xsrc", private_key := "key" } poorOracle
      cryptoMsg = ([], [ChainEffect.balanceChecked "0xsrc"]) :=
  claim_C10_insufficient_balance
    { source_address := "0xsrc", private_key := "key" } poorOracle cryptoMsg
    [] 5 (by decide) rfl rfl (by decide)
